import Mathlib

/-!
Shallow embedding of the two HTTP-client scripts of the `zik_zak` repository:

* `src/zik_zak/check_recipes.py`  — `check_recipes()`
* `src/zik_zak/test_realistic_product.py` — `test_realistic_product_recipes()`,
  `test_second_product()` and the `__main__` block.

Both scripts are pure HTTP clients: they send requests, inspect the JSON
responses, print lines to the console, and return a boolean.  We embed each
script as a pure function of an *environment* that fixes, for each HTTP call
the script performs, either the response the server produced or the Python
exception that the call raised.  The function returns the list of printed
lines together with the boolean result; Python's `try/except` boundary is an
explicit handler over an `Except` value produced by the body of the `try`
block.  `time.sleep` has no observable effect in this model.

JSON bodies are modelled with just the fields the scripts touch; an extra
`dump` string stands for the `json.dumps(...)` rendering of the full response
(the scripts only print it).  Python's `dict.get(k, default)` becomes
`Option.getD`, `d[k]` becomes a lookup that raises `KeyError` when the key is
absent, and truthiness of a string field (`if result.get("name")`) is
"present and non-empty".
-/

/-- A Python exception, as far as these scripts can observe one. -/
inductive PyExc where
  | connectionError
  | keyError (key : String)
  | other (msg : String)
deriving DecidableEq, Repr

/-- Python `str(e)` for the exceptions of this model.  For `KeyError` Python
renders the missing key in quotes; for a `ConnectionError` the concrete text
is irrelevant to the scripts, a fixed stand-in is used. -/
def pyStr : PyExc → String
  | PyExc.connectionError => "Connection refused"
  | PyExc.keyError k => "\x27" ++ k ++ "\x27"
  | PyExc.other m => m

/-- An HTTP response as the scripts see it: the status code, the parsed JSON
body (`response.json()`), and the raw text (`response.text`). -/
structure Response (β : Type) where
  status_code : Nat
  body : β
  text : String
deriving DecidableEq

/-- The outcome of one `requests.get`/`requests.post` call: either a response
arrived, or the call raised an exception. -/
inductive Call (β : Type) where
  | raise (e : PyExc)
  | ok (r : Response β)
deriving DecidableEq

/-- Decides whether `needle` occurs at the head of `l` (character lists). -/
def hasLead (needle l : List Char) : Bool :=
  match needle, l with
  | [], _ => true
  | a :: as, b :: bs => a == b && hasLead as bs
  | _ :: _, [] => false

/-- Decides whether `n` occurs as a contiguous run somewhere in `l`. -/
def containsChars : List Char → List Char → Bool
  | n, [] => n.isEmpty
  | n, c :: cs => hasLead n (c :: cs) || containsChars n cs

/-- Python's substring test `needle in hay` on strings. -/
def strIn (needle hay : String) : Bool :=
  containsChars needle.data hay.data

/-- Truthiness of `d.get(k)` for a string-valued field: the key is present
and its value is a non-empty string. -/
def truthy : Option String → Bool
  | some s => !(s == "")
  | none => false

/-- Python `repr` of a string for the quote-free strings these scripts deal
with: the string wrapped in single quotes (`\x27`). -/
def pyQuote (s : String) : String := "\x27" ++ s ++ "\x27"

/-- Python `repr`/`str` of a list of strings, as printed by
`print("   Available recipes:", list(recipes.keys()))`. -/
def pyReprList (l : List String) : String :=
  "[" ++ String.intercalate ", " (l.map pyQuote) ++ "]"

/-- Digits of a decimal literal read into a number; `none` when the list is
empty or holds a non-digit. -/
def digitsToNat : List Char → Option Nat
  | [] => none
  | cs => cs.foldl (fun acc c =>
      match acc with
      | none => none
      | some n => if c.isDigit then some (n * 10 + (c.toNat - 48)) else none) (some 0)

/-- A decimal integer literal with an optional sign. -/
def parseDecInt : List Char → Option Int
  | '-' :: cs => (digitsToNat cs).map (fun n => -(n : Int))
  | '+' :: cs => (digitsToNat cs).map (fun n => (n : Int))
  | cs => (digitsToNat cs).map (fun n => (n : Int))

/-- Python `int(s)` on a decimal string literal: the parsed integer, or a
raised `ValueError` (modelled as `PyExc.other`) when the string is not a
decimal literal. -/
def pyInt (s : String) : Except PyExc Int :=
  match parseDecInt s.data with
  | some v => Except.ok v
  | none => Except.error (PyExc.other ("invalid literal for int with base 10: " ++ pyQuote s))

/-- One registered recipe as the scripts read it from `GET /recipes`:
the fields are `Option`s because the scripts access every one of them with
`dict.get` and a default. -/
structure RecipeInfo where
  description : Option String
  inputs : Option (List String)
  operations_count : Option Nat
deriving DecidableEq

/-- One record of `GET /transactions`.  All four fields are read with
`dict.get` (filter, metadata) or raw indexing (display), so each is an
`Option`. -/
structure Transaction where
  from_account : Option String
  to_account : Option String
  amount : Option String
  metadata : Option String
deriving DecidableEq

/-- The body of a `POST /recipe/read_realistic_product` response: the three
fields the scripts inspect, plus `dump`, a stand-in for the
`json.dumps(result, indent=2)` rendering of the whole object. -/
structure ProductView where
  name : Option String
  price : Option String
  brand : Option String
  dump : String
deriving DecidableEq

/-- `product_data["id"]` of `test_realistic_product_recipes`. -/
def productId : String := "prod_laptop_gaming_001"

/-- The filter predicate of the history step (lines 112-113 of
`test_realistic_product.py`): the product id occurs in `from_account` or in
`to_account`, each read with `tx.get(field, "")`. -/
def txMatches (pid : String) (tx : Transaction) : Bool :=
  strIn pid (tx.from_account.getD "") || strIn pid (tx.to_account.getD "")

/-- `product_transactions` of the history step: the list comprehension at
lines 110-114 filtering the full history. -/
def product_transactions (pid : String) (history : List Transaction) : List Transaction :=
  history.filter (txMatches pid)

/-- Python's slice `l[-5:]`: the last five elements (the whole list when it
is shorter than five). -/
def lastFive (l : List Transaction) : List Transaction :=
  l.drop (l.length - 5)

/-- The transactions the history step actually prints:
`product_transactions[-5:]` at line 117. -/
def displayedTransactions (pid : String) (history : List Transaction) : List Transaction :=
  lastFive (product_transactions pid history)

/-- The display loop of the history step (lines 117-120).  `i` is the
`enumerate` counter.  Indexing `tx['from_account']`, `tx['to_account']`,
`tx['amount']` raises `KeyError` when the key is missing — in the order the
f-string evaluates them — and the line is only printed once the whole
f-string evaluated.  Returns the lines printed before any exception. -/
def displayTxLines : List Transaction → Nat → List String × Except PyExc Unit
  | [], _ => ([], Except.ok ())
  | tx :: rest, i =>
    match tx.from_account with
    | none => ([], Except.error (PyExc.keyError "from_account"))
    | some fa =>
      match tx.to_account with
      | none => ([], Except.error (PyExc.keyError "to_account"))
      | some ta =>
        match tx.amount with
        | none => ([], Except.error (PyExc.keyError "amount"))
        | some am =>
          let line1 := "      " ++ toString (i + 1) ++ ". " ++ fa ++ " → " ++ ta ++ " (" ++ am ++ ")"
          let meta :=
            match tx.metadata with
            | some m => if m == "" then [] else ["         Metadata: " ++ m]
            | none => []
          let rec_ := displayTxLines rest (i + 1)
          (line1 :: (meta ++ rec_.1), rec_.2)

/-- The per-recipe print block of Test 3 (lines 92-96): for each `(name,
info)` pair of the `/recipes` mapping whose name contains `"realistic"`,
three lines are printed. -/
def listRecipeLines : List (String × RecipeInfo) → List String
  | [] => []
  | (name, info) :: rest =>
    (if strIn "realistic" name then
      ["   🎯 " ++ name ++ ": " ++ info.description.getD "No description",
       "      Inputs: " ++ pyReprList (info.inputs.getD []),
       "      Operations: " ++ toString (info.operations_count.getD 0)]
     else []) ++ listRecipeLines rest

/-- The environment of one run of `test_realistic_product_recipes`: the
outcome of each of its four HTTP calls, in program order. -/
structure Env1 where
  create : Call String
  read : Call ProductView
  recipeList : Call (List (String × RecipeInfo))
  history : Call (List Transaction)

/-- The separator `"=" * 50`. -/
def eq50 : String := String.mk (List.replicate 50 (Char.ofNat 61))

def warnLine : String := "⚠️  Some key fields are missing or empty"

def connLine1 : String := "❌ Connection error: Make sure the Pure Accounting Server is running on port 3003"

def connLine2 : String := "   Start it with: cd tensorzero/pure-accounting-server && cargo run"

/-- The `try` block of `test_realistic_product_recipes` (lines 40-125),
together with the two prints preceding it: the printed lines paired with
either the returned boolean or the exception that escaped the block.
`time.sleep(0.1)` at line 59 has no observable effect. -/
def scenario1_body (env : Env1) : List String × Except PyExc Bool :=
  let log0 := ["🦖 Testing Realistic Product Recipes", eq50,
               "📝 Test 1: Creating realistic product..."]
  match env.create with
  | Call.raise e => (log0, Except.error e)
  | Call.ok cr =>
    if cr.status_code == 200 then
      let log1 := log0 ++ ["✅ Product created successfully!", "   Result: " ++ cr.body]
      let log2 := log1 ++ ["\n📖 Test 2: Reading realistic product..."]
      match env.read with
      | Call.raise e => (log2, Except.error e)
      | Call.ok rr =>
        if rr.status_code == 200 then
          let log3 := log2 ++ ["✅ Product read successfully!",
                               "   Retrieved product: " ++ rr.body.dump] ++
            (if truthy rr.body.name && truthy rr.body.price && truthy rr.body.brand then
              ["✅ Key fields validated successfully!"]
             else [warnLine])
          let log4 := log3 ++ ["\n📋 Test 3: Listing all available recipes..."]
          match env.recipeList with
          | Call.raise e => (log4, Except.error e)
          | Call.ok lr =>
            let log5 := log4 ++
              (if lr.status_code == 200 then
                "✅ Available recipes:" :: listRecipeLines lr.body
               else ["❌ Failed to list recipes: " ++ toString lr.status_code])
            let log6 := log5 ++ ["\n🔍 Test 4: Checking transaction history..."]
            match env.history with
            | Call.raise e => (log6, Except.error e)
            | Call.ok hr =>
              if hr.status_code == 200 then
                let history := hr.body
                let log7 := log6 ++ ["✅ Transaction history contains " ++
                  toString history.length ++ " transactions"]
                let pts := product_transactions productId history
                let log8 := log7 ++ ["   📊 Found " ++ toString pts.length ++
                  " transactions for our product:"]
                let shown := displayTxLines (lastFive pts) 0
                match shown.2 with
                | Except.error e => (log8 ++ shown.1, Except.error e)
                | Except.ok _ =>
                  (log8 ++ shown.1 ++ ["\n🎉 All tests completed successfully!"],
                   Except.ok true)
              else
                (log6 ++ ["❌ Failed to get history: " ++ toString hr.status_code,
                          "\n🎉 All tests completed successfully!"],
                 Except.ok true)
        else
          (log2 ++ ["❌ Failed to read product: " ++ toString rr.status_code,
                    "   Error: " ++ rr.text],
           Except.ok false)
    else
      (log0 ++ ["❌ Failed to create product: " ++ toString cr.status_code,
                "   Error: " ++ cr.text],
       Except.ok false)

/-- `test_realistic_product_recipes` (lines 14-133): the `try` body wrapped
in the two `except` handlers.  `except requests.exceptions.ConnectionError`
prints the two instruction lines; `except Exception as e` prints the generic
line.  Returns the boolean result and the full console output. -/
def test_realistic_product_recipes (env : Env1) : Bool × List String :=
  match scenario1_body env with
  | (log, Except.ok b) => (b, log)
  | (log, Except.error PyExc.connectionError) => (false, log ++ [connLine1, connLine2])
  | (log, Except.error e) => (false, log ++ ["❌ Unexpected error: " ++ pyStr e])

/-- The environment of one run of `test_second_product`: the outcomes of its
create and read calls.  The create response body is never read. -/
structure Env2 where
  create : Call Unit
  read : Call ProductView

/-- Models Python's `f"{x/100:.2f}"` applied to an integer number of cents:
the exact quotient rendered with two decimal digits.  (For the integer
magnitudes these scripts handle, float division by 100 followed by `.2f`
rounding prints exactly this string.) -/
def formatMoney (x : Int) : String :=
  let n := x.natAbs
  let sign := if x < 0 then "-" else ""
  let frac := n % 100
  let fracStr := if frac < 10 then "0" ++ toString frac else toString frac
  sign ++ toString (n / 100) ++ "." ++ fracStr

/-- The `try` block of `test_second_product` (lines 160-187).  The name and
brand lines print before the price f-string evaluates `int(...)`, so a
`ValueError` from `int` leaves them in the log. -/
def scenario2_body (env : Env2) : List String × Except PyExc Bool :=
  match env.create with
  | Call.raise e => ([], Except.error e)
  | Call.ok cr =>
    if cr.status_code == 200 then
      let log1 := ["✅ iPhone created successfully!"]
      match env.read with
      | Call.raise e => (log1, Except.error e)
      | Call.ok rr =>
        if rr.status_code == 200 then
          let log2 := log1 ++
            ["✅ iPhone data retrieved: " ++ rr.body.name.getD "Unknown",
             "   Brand: " ++ rr.body.brand.getD "Unknown"]
          match rr.body.price with
          | none => (log2 ++ ["   Price: $" ++ formatMoney 0], Except.ok true)
          | some s =>
            match pyInt s with
            | Except.error e => (log2, Except.error e)
            | Except.ok v => (log2 ++ ["   Price: $" ++ formatMoney v], Except.ok true)
        else
          (log1 ++ ["❌ Failed to read iPhone: " ++ rr.text], Except.ok false)
    else
      (["❌ Failed to create iPhone: " ++ cr.text], Except.ok false)

/-- `test_second_product` (lines 135-191): the two prints before the `try`,
the `try` body, and the single `except Exception as e` handler, which also
catches connection errors. -/
def test_second_product (env : Env2) : Bool × List String :=
  let pre := ["\n" ++ eq50, "📱 Testing with iPhone 15 Pro data..."]
  match scenario2_body env with
  | (log, Except.ok b) => (b, pre ++ log)
  | (log, Except.error e) => (false, pre ++ log ++ ["❌ Error testing iPhone: " ++ pyStr e])

/-- The separator `"=" * 30`. -/
def eq30 : String := String.mk (List.replicate 30 (Char.ofNat 61))

/-- The marker prefix of the per-recipe name lines printed by
`check_recipes` (`print(f"   📝 {name}")`). -/
def enumMarker : String := "   📝 "

/-- `realistic_recipes` of `check_recipes` (line 21): the keys of the
`/recipes` mapping that contain `"realistic"`. -/
def realisticNames (recipes : List (String × RecipeInfo)) : List String :=
  (recipes.map Prod.fst).filter (fun n => strIn "realistic" n)

/-- Python `recipes[name]`: the value of the first pair with this key, when
present. -/
def lookupDict (d : List (String × RecipeInfo)) (k : String) : Option RecipeInfo :=
  (d.find? (fun p => p.1 == k)).map Prod.snd

/-- The per-name print loop of `check_recipes` (lines 25-31).  Each `name`
is looked up with `recipes[name]`, which raises `KeyError` when absent (this
cannot happen on the names the script computes).  Returns the printed lines
and the first exception. -/
def recipeBlocks (d : List (String × RecipeInfo)) : List String → List String × Except PyExc Unit
  | [] => ([], Except.ok ())
  | name :: rest =>
    match lookupDict d name with
    | none => ([], Except.error (PyExc.keyError name))
    | some recipe =>
      let block := [enumMarker ++ name,
        "      Description: " ++ recipe.description.getD "No description",
        "      Inputs: " ++ (toString (recipe.inputs.getD []).length ++ " parameters"),
        "      Operations: " ++ (toString (recipe.operations_count.getD 0) ++ " steps"),
        ""]
      let rec_ := recipeBlocks d rest
      (block ++ rec_.1, rec_.2)

/-- The `try` block of `check_recipes` (lines 13-43). -/
def check_recipes_body (env : Call (List (String × RecipeInfo))) :
    List String × Except PyExc Bool :=
  match env with
  | Call.raise e => ([], Except.error e)
  | Call.ok resp =>
    if resp.status_code == 200 then
      let recipes := resp.body
      let log0 := ["🦖 Recipe Status Check", eq30]
      let realistic_recipes := realisticNames recipes
      if realistic_recipes.isEmpty then
        (log0 ++ ["❌ Realistic product recipes not found!",
          "   Available recipes: " ++ pyReprList (recipes.map Prod.fst),
          "   📝 Please restart the server to load new recipes:",
          "   🔄 Stop the server (Ctrl+C) and run: cargo run"],
         Except.ok false)
      else
        let log1 := log0 ++ ["✅ Realistic product recipes found:"]
        let blocks := recipeBlocks recipes realistic_recipes
        match blocks.2 with
        | Except.error e => (log1 ++ blocks.1, Except.error e)
        | Except.ok _ =>
          (log1 ++ blocks.1 ++ ["🚀 Ready to test! Run: python3 test_realistic_product.py"],
           Except.ok true)
    else
      (["❌ Failed to connect: " ++ toString resp.status_code], Except.ok false)

/-- `check_recipes` (lines 11-50): the `try` body wrapped in the
`ConnectionError` and generic handlers. -/
def check_recipes (env : Call (List (String × RecipeInfo))) : Bool × List String :=
  match check_recipes_body env with
  | (log, Except.ok b) => (b, log)
  | (log, Except.error PyExc.connectionError) =>
    (false, log ++ ["❌ Server not running on port 3003. Start with: cargo run"])
  | (log, Except.error e) => (false, log ++ ["❌ Error: " ++ pyStr e])

def allPassedLine : String :=
  "\n🎉 All tests passed! The realistic product recipes are working correctly."

def someFailedLine : String :=
  "\n❌ Some tests failed. Check the server logs for more details."

/-- `success` at the end of the `__main__` block (lines 198-200): the first
scenario's result, replaced by the second scenario's result only when the
first succeeded. -/
def mainSuccess (e1 : Env1) (e2 : Env2) : Bool :=
  let success := (test_realistic_product_recipes e1).1
  if success then (test_second_product e2).1 else success

/-- Whether the `__main__` block invokes `test_second_product` (line 199-200):
exactly when the first scenario returned `True`. -/
def mainRunsSecond (e1 : Env1) : Bool :=
  (test_realistic_product_recipes e1).1

/-- The console output of the `__main__` block (lines 193-205). -/
def mainLog (e1 : Env1) (e2 : Env2) : List String :=
  ["🦖 Pure Accounting - Realistic Product Recipe Test",
   "Make sure the server is running: cargo run", ""] ++
  (test_realistic_product_recipes e1).2 ++
  (if (test_realistic_product_recipes e1).1 then (test_second_product e2).2 else []) ++
  [if mainSuccess e1 e2 then allPassedLine else someFailedLine]

/-- The process exit code of the script: the `__main__` block calls no exit
function, so the interpreter always exits 0, whatever the scenarios
returned. -/
def mainExitCode (e1 : Env1) (e2 : Env2) : Nat :=
  let _ := e1
  let _ := e2
  0

/-! ### Characterisation of the substring test -/

lemma hasLead_iff (p l : List Char) : hasLead p l = true ↔ ∃ t, p ++ t = l := by
  induction p generalizing l with
  | nil => simp [hasLead]
  | cons a as ih =>
    cases l with
    | nil => simp [hasLead]
    | cons b bs =>
      simp only [hasLead, Bool.and_eq_true, beq_iff_eq, ih, List.cons_append,
        List.cons.injEq]
      constructor
      · rintro ⟨rfl, t, rfl⟩
        exact ⟨t, rfl, rfl⟩
      · rintro ⟨t, rfl, rfl⟩
        exact ⟨rfl, t, rfl⟩

lemma containsChars_iff (n l : List Char) :
    containsChars n l = true ↔ ∃ s t, s ++ n ++ t = l := by
  induction l with
  | nil =>
    simp only [containsChars, List.isEmpty_iff]
    constructor
    · rintro rfl
      exact ⟨[], [], rfl⟩
    · rintro ⟨s, t, h⟩
      rcases List.append_eq_nil.mp h with ⟨h1, -⟩
      exact (List.append_eq_nil.mp h1).2
  | cons c cs ih =>
    simp only [containsChars, Bool.or_eq_true, hasLead_iff, ih]
    constructor
    · rintro (⟨t, ht⟩ | ⟨s, t, rfl⟩)
      · exact ⟨[], t, by simpa using ht⟩
      · exact ⟨c :: s, t, rfl⟩
    · rintro ⟨s, t, h⟩
      cases s with
      | nil => exact Or.inl ⟨t, by simpa using h⟩
      | cons x xs =>
        rw [List.cons_append, List.cons_append, List.cons.injEq] at h
        exact Or.inr ⟨xs, t, h.2⟩

/-- `strIn needle hay` decides precisely occurrence of `needle` as a
contiguous substring of `hay`. -/
lemma strIn_iff (n h : String) :
    strIn n h = true ↔ ∃ s t : List Char, s ++ n.data ++ t = h.data :=
  containsChars_iff n.data h.data

/-! ### The history-step view -/

lemma count_filter_eq {α : Type} [DecidableEq α] (p : α → Bool) (l : List α) (a : α) :
    (l.filter p).count a = if p a then l.count a else 0 := by
  by_cases h : p a = true
  · rw [if_pos h, List.count_filter h]
  · rw [if_neg h, List.count_eq_zero]
    intro hmem
    exact h (List.mem_filter.mp hmem).2

lemma displayTxLines_ok (txs : List Transaction) (i : Nat)
    (h : ∀ tx ∈ txs, tx.from_account.isSome ∧ tx.to_account.isSome ∧ tx.amount.isSome) :
    (displayTxLines txs i).2 = Except.ok () := by
  induction txs generalizing i with
  | nil => rfl
  | cons tx rest ih =>
    obtain ⟨h1, h2, h3⟩ := h tx (by simp)
    obtain ⟨fa, hfa⟩ := Option.isSome_iff_exists.mp h1
    obtain ⟨ta, hta⟩ := Option.isSome_iff_exists.mp h2
    obtain ⟨am, ham⟩ := Option.isSome_iff_exists.mp h3
    simp only [displayTxLines, hfa, hta, ham]
    exact ih (i + 1) (fun t ht => h t (by simp [ht]))

/-! ### Relating the try-block bodies to the wrapped functions -/

lemma scenario1_wrapper (env : Env1) (b : Bool)
    (h : (scenario1_body env).2 = Except.ok b) :
    (test_realistic_product_recipes env).1 = b := by
  simp only [test_realistic_product_recipes]
  rcases hsb : scenario1_body env with ⟨log, r⟩
  rw [hsb] at h
  simp only at h
  cases r with
  | ok a => simp_all
  | error e => simp_all

lemma scenario1_wrapper_err (env : Env1) (e : PyExc)
    (h : (scenario1_body env).2 = Except.error e) :
    (test_realistic_product_recipes env).1 = false := by
  simp only [test_realistic_product_recipes]
  rcases hsb : scenario1_body env with ⟨log, r⟩
  rw [hsb] at h
  simp only at h
  cases r with
  | ok a => simp_all
  | error e' => cases e' <;> simp_all

lemma scenario1_log_ok (env : Env1) (b : Bool)
    (h : (scenario1_body env).2 = Except.ok b) :
    (test_realistic_product_recipes env).2 = (scenario1_body env).1 := by
  simp only [test_realistic_product_recipes]
  rcases hsb : scenario1_body env with ⟨log, r⟩
  rw [hsb] at h
  simp only at h
  cases r with
  | ok a => simp_all
  | error e => simp_all

lemma scenario1_conn_log (env : Env1)
    (h : (scenario1_body env).2 = Except.error PyExc.connectionError) :
    (test_realistic_product_recipes env).2 = (scenario1_body env).1 ++ [connLine1, connLine2] := by
  simp only [test_realistic_product_recipes]
  rcases hsb : scenario1_body env with ⟨log, r⟩
  rw [hsb] at h
  simp only at h
  cases r with
  | ok a => simp_all
  | error e' => cases e' <;> simp_all

lemma scenario2_wrapper (env : Env2) (b : Bool)
    (h : (scenario2_body env).2 = Except.ok b) :
    (test_second_product env).1 = b := by
  simp only [test_second_product]
  rcases hsb : scenario2_body env with ⟨log, r⟩
  rw [hsb] at h
  simp only at h
  cases r with
  | ok a => simp_all
  | error e => simp_all

lemma scenario2_wrapper_err (env : Env2) (e : PyExc)
    (h : (scenario2_body env).2 = Except.error e) :
    (test_second_product env).1 = false := by
  simp only [test_second_product]
  rcases hsb : scenario2_body env with ⟨log, r⟩
  rw [hsb] at h
  simp only at h
  cases r with
  | ok a => simp_all
  | error e' => simp_all

lemma scenario1_body_create_fail (env : Env1) (cr : Response String)
    (hc : env.create = Call.ok cr) (hcs : (cr.status_code == 200) = false) :
    (scenario1_body env).2 = Except.ok false := by
  simp [scenario1_body, hc, hcs]

lemma scenario1_body_read_fail (env : Env1) (cr : Response String) (rr : Response ProductView)
    (hc : env.create = Call.ok cr) (hcs : (cr.status_code == 200) = true)
    (hrd : env.read = Call.ok rr) (hrs : (rr.status_code == 200) = false) :
    (scenario1_body env).2 = Except.ok false := by
  simp [scenario1_body, hc, hcs, hrd, hrs]

lemma scenario1_body_result (env : Env1) (cr : Response String) (rr : Response ProductView)
    (lr : Response (List (String × RecipeInfo))) (hr : Response (List Transaction))
    (hc : env.create = Call.ok cr) (hrd : env.read = Call.ok rr)
    (hl : env.recipeList = Call.ok lr) (hh : env.history = Call.ok hr)
    (hkeys : ∀ tx ∈ product_transactions productId hr.body,
      tx.from_account.isSome ∧ tx.to_account.isSome ∧ tx.amount.isSome) :
    (scenario1_body env).2 = Except.ok (cr.status_code == 200 && rr.status_code == 200) := by
  have hdisp : ∀ tx ∈ lastFive (product_transactions productId hr.body),
      tx.from_account.isSome ∧ tx.to_account.isSome ∧ tx.amount.isSome :=
    fun tx ht => hkeys tx (List.drop_subset _ _ ht)
  have hok := displayTxLines_ok (lastFive (product_transactions productId hr.body)) 0 hdisp
  cases hcs : cr.status_code == 200 with
  | false => simp [scenario1_body, hc, hcs]
  | true =>
    cases hrs : rr.status_code == 200 with
    | false => simp [scenario1_body, hc, hrd, hcs, hrs]
    | true =>
      simp only [scenario1_body, hc, hrd, hl, hh, hcs, hrs, if_true, Bool.and_self]
      split
      · rw [hok]
      · rfl

/-! ### The enumeration printed by `check_recipes` -/

/-- The recipe names enumerated in a console log: the payload of every line
that starts with the `   📝 ` marker `check_recipes` puts in front of a
recipe name. -/
def enumNames (log : List String) : List String :=
  log.filterMap (fun l =>
    if hasLead enumMarker.data l.data then some (String.mk (l.data.drop enumMarker.data.length))
    else none)

lemma string_data_append (a b : String) : (a ++ b).data = a.data ++ b.data := rfl

lemma hasLead_false_of_take (p l : List Char) (hne : l.take p.length ≠ p) :
    hasLead p l = false := by
  cases h : hasLead p l
  · rfl
  · obtain ⟨t, rfl⟩ := (hasLead_iff p l).mp h
    exact absurd (List.take_left p t) hne

lemma take5_append (c d : List Char) (h : 5 ≤ c.length) :
    (c ++ d).take 5 = c.take 5 := by
  rw [List.take_append_eq_append_take, Nat.sub_eq_zero_of_le h, List.take_zero, List.append_nil]

lemma enumNames_append (a b : List String) :
    enumNames (a ++ b) = enumNames a ++ enumNames b :=
  List.filterMap_append a b _

lemma enumNames_cons_skip (l : String) (ls : List String)
    (h : hasLead enumMarker.data l.data = false) :
    enumNames (l :: ls) = enumNames ls := by
  simp [enumNames, h]

lemma enumNames_cons_name (n : String) (ls : List String) :
    enumNames ((enumMarker ++ n) :: ls) = n :: enumNames ls := by
  have h1 : hasLead enumMarker.data (enumMarker.data ++ n.data) = true :=
    (hasLead_iff _ _).mpr ⟨n.data, rfl⟩
  simp only [enumNames, List.filterMap_cons, show (enumMarker ++ n).data = enumMarker.data ++ n.data from rfl, h1, List.drop_left]
  rfl

lemma enumNames_skip_append (c : String) (d : String) (ls : List String)
    (hlen : 5 ≤ c.data.length) (hne : c.data.take 5 ≠ enumMarker.data) :
    enumNames ((c ++ d) :: ls) = enumNames ls := by
  apply enumNames_cons_skip
  apply hasLead_false_of_take
  rw [string_data_append, show enumMarker.data.length = 5 from rfl, take5_append c.data d.data hlen]
  exact hne

lemma enumNames_block (n : String) (r : RecipeInfo) (ls : List String) :
    enumNames ((enumMarker ++ n) ::
      ("      Description: " ++ r.description.getD "No description") ::
      ("      Inputs: " ++ (toString (r.inputs.getD []).length ++ " parameters")) ::
      ("      Operations: " ++ (toString (r.operations_count.getD 0) ++ " steps")) ::
      "" :: ls) = n :: enumNames ls := by
  rw [enumNames_cons_name,
      enumNames_skip_append "      Description: " _ _ (by decide) (by decide),
      enumNames_skip_append "      Inputs: " _ _ (by decide) (by decide),
      enumNames_skip_append "      Operations: " _ _ (by decide) (by decide),
      enumNames_cons_skip "" _ rfl]

lemma lookupDict_realistic (recipes : List (String × RecipeInfo)) (n : String)
    (hn : n ∈ realisticNames recipes) : (lookupDict recipes n).isSome := by
  have hmem : n ∈ recipes.map Prod.fst := (List.mem_filter.mp hn).1
  obtain ⟨p, hp, hpe⟩ := List.mem_map.mp hmem
  have hfind : (List.find? (fun q => q.1 == n) recipes).isSome := by
    rw [List.find?_isSome]
    exact ⟨p, hp, by simp [hpe]⟩
  obtain ⟨q, hq⟩ := Option.isSome_iff_exists.mp hfind
  simp [lookupDict, hq]

lemma recipeBlocks_eval (d : List (String × RecipeInfo)) (names : List String)
    (hsub : ∀ n ∈ names, (lookupDict d n).isSome) :
    (recipeBlocks d names).2 = Except.ok ()
    ∧ enumNames (recipeBlocks d names).1 = names := by
  induction names with
  | nil => exact ⟨rfl, rfl⟩
  | cons n rest ih =>
    obtain ⟨r, hr⟩ := Option.isSome_iff_exists.mp (hsub n (by simp))
    have ihh := ih (fun m hm => hsub m (by simp [hm]))
    simp only [recipeBlocks, hr, List.cons_append, List.nil_append]
    exact ⟨ihh.1, by rw [enumNames_block, ihh.2]⟩

lemma check_recipes_raise (e : PyExc) : (check_recipes (Call.raise e)).1 = false := by
  cases e <;> rfl

lemma check_recipes_bad_status (resp : Response (List (String × RecipeInfo)))
    (hs : (resp.status_code == 200) = false) :
    (check_recipes (Call.ok resp)).1 = false := by
  simp [check_recipes, check_recipes_body, hs]

lemma check_recipes_empty (resp : Response (List (String × RecipeInfo)))
    (hs : (resp.status_code == 200) = true)
    (he : realisticNames resp.body = []) :
    (check_recipes (Call.ok resp)).1 = false := by
  simp [check_recipes, check_recipes_body, hs, he]

lemma check_recipes_success (resp : Response (List (String × RecipeInfo)))
    (hs : (resp.status_code == 200) = true)
    (hne : realisticNames resp.body ≠ []) :
    (check_recipes (Call.ok resp)).1 = true
    ∧ (check_recipes (Call.ok resp)).2
        = ["🦖 Recipe Status Check", eq30, "✅ Realistic product recipes found:"]
          ++ (recipeBlocks resp.body (realisticNames resp.body)).1
          ++ ["🚀 Ready to test! Run: python3 test_realistic_product.py"] := by
  have hok := (recipeBlocks_eval resp.body (realisticNames resp.body)
    (fun m hm => lookupDict_realistic _ _ hm)).1
  have hie : (realisticNames resp.body).isEmpty = false := by
    cases h : (realisticNames resp.body).isEmpty
    · rfl
    · exact absurd (List.isEmpty_iff.mp h) hne
  constructor
  · simp [check_recipes, check_recipes_body, hs, hie, hok]
  · simp [check_recipes, check_recipes_body, hs, hie, hok]

lemma scenario1_warn_mem (env : Env1) (cr : Response String) (rr : Response ProductView)
    (hc : env.create = Call.ok cr) (hcs : cr.status_code = 200)
    (hrd : env.read = Call.ok rr) (hrs : rr.status_code = 200)
    (hval : (truthy rr.body.name && truthy rr.body.price && truthy rr.body.brand) = false) :
    warnLine ∈ (scenario1_body env).1 := by
  rcases hL : env.recipeList with e | lr
  · simp [scenario1_body, hc, hrd, hcs, hrs, hval, hL]
  · rcases hH : env.history with e | hr
    · simp [scenario1_body, hc, hrd, hcs, hrs, hval, hL, hH]
    · by_cases hh2 : hr.status_code = 200
      · cases hd : (displayTxLines (lastFive (product_transactions productId hr.body)) 0).2 with
        | error e => simp [scenario1_body, hc, hrd, hcs, hrs, hval, hL, hH, hh2, hd]
        | ok a => simp [scenario1_body, hc, hrd, hcs, hrs, hval, hL, hH, hh2, hd]
      · simp [scenario1_body, hc, hrd, hcs, hrs, hval, hL, hH, hh2]

/-! ### Concrete environments used by counterexamples and witnesses -/

/-- A fully successful environment for `test_realistic_product_recipes`:
every endpoint answers 200 and the single matched history record carries all
three displayed keys. -/
def envHappy : Env1 :=
  { create := Call.ok ⟨200, "created", ""⟩
    read := Call.ok ⟨200, ⟨some "MSI GP66", some "189999", some "MSI", "view"⟩, ""⟩
    recipeList := Call.ok ⟨200, [("create_realistic_product", ⟨some "desc", some ["id"], some 3⟩)], ""⟩
    history := Call.ok ⟨200, [⟨some ("bank." ++ productId), some "stock", some "100", some "m"⟩], ""⟩ }

/-- Create and read succeed, but the recipe-list and transaction-history
endpoints both answer status 500. -/
def envListHistFail : Env1 :=
  { create := Call.ok ⟨200, "created", ""⟩
    read := Call.ok ⟨200, ⟨some "MSI GP66", some "189999", some "MSI", "view"⟩, ""⟩
    recipeList := Call.ok ⟨500, [], "internal error"⟩
    history := Call.ok ⟨500, [], "internal error"⟩ }

/-- Create and read succeed, then the connection is lost before the
recipe-list call. -/
def envListConnLost : Env1 :=
  { create := Call.ok ⟨200, "created", ""⟩
    read := Call.ok ⟨200, ⟨some "MSI GP66", some "189999", some "MSI", "view"⟩, ""⟩
    recipeList := Call.raise PyExc.connectionError
    history := Call.ok ⟨200, [], ""⟩ }

/-- Everything answers 200 but the single matched history record lacks the
`amount` key. -/
def envMissingAmount : Env1 :=
  { create := Call.ok ⟨200, "created", ""⟩
    read := Call.ok ⟨200, ⟨some "MSI GP66", some "189999", some "MSI", "view"⟩, ""⟩
    recipeList := Call.ok ⟨200, [], ""⟩
    history := Call.ok ⟨200, [⟨some ("bank." ++ productId), some "stock", none, none⟩], ""⟩ }

/-- Everything answers 200 but the read response has no `brand` field. -/
def envMissingBrand : Env1 :=
  { create := Call.ok ⟨200, "created", ""⟩
    read := Call.ok ⟨200, ⟨some "MSI GP66", some "189999", none, "view"⟩, ""⟩
    recipeList := Call.ok ⟨200, [], ""⟩
    history := Call.ok ⟨200, [], ""⟩ }

/-! ### Claim C1 -/

/-- C1 counterexample: the recipe-list and transaction-history endpoints
both answer status 500 (non-success), yet the scenario returns `True`, so a
non-success status from these two endpoints does not make the scenario
report failure. -/
theorem c1_counterexample :
    envListHistFail.recipeList = Call.ok ⟨500, [], "internal error"⟩
    ∧ envListHistFail.history = Call.ok ⟨500, [], "internal error"⟩
    ∧ (test_realistic_product_recipes envListHistFail).1 = true :=
  ⟨rfl, rfl, by rfl⟩

/-- C1 (amended): a non-success status from the create or the read endpoint
aborts the scenario with result `False`; a non-success status from the
recipe-list or transaction-history endpoint is only logged — with successful
create and read (and matched history records carrying their displayed keys)
the scenario still returns `True` whatever those two statuses are. -/
theorem c1_nonsuccess_fatal_only_for_create_read (env : Env1) (cr : Response String)
    (rr : Response ProductView) (lr : Response (List (String × RecipeInfo)))
    (hr : Response (List Transaction)) (hc : env.create = Call.ok cr) :
    (cr.status_code ≠ 200 → (test_realistic_product_recipes env).1 = false)
    ∧ (env.read = Call.ok rr → rr.status_code ≠ 200 →
        (test_realistic_product_recipes env).1 = false)
    ∧ (cr.status_code = 200 → env.read = Call.ok rr → rr.status_code = 200 →
        env.recipeList = Call.ok lr → env.history = Call.ok hr →
        (∀ tx ∈ product_transactions productId hr.body,
          tx.from_account.isSome ∧ tx.to_account.isSome ∧ tx.amount.isSome) →
        (test_realistic_product_recipes env).1 = true) := by
  refine ⟨fun h1 => ?_, fun hrd hrs => ?_, fun hcs hrd hrs hl hh hkeys => ?_⟩
  · exact scenario1_wrapper env false (scenario1_body_create_fail env cr hc (by simpa using h1))
  · by_cases hcs : cr.status_code = 200
    · exact scenario1_wrapper env false
        (scenario1_body_read_fail env cr rr hc (by simp [hcs]) hrd (by simpa using hrs))
    · exact scenario1_wrapper env false (scenario1_body_create_fail env cr hc (by simpa using hcs))
  · have hb := scenario1_body_result env cr rr lr hr hc hrd hl hh hkeys
    rw [hcs, hrs] at hb
    simp only [beq_self_eq_true, Bool.and_self] at hb
    exact scenario1_wrapper env true hb

theorem c1_witness :
    (test_realistic_product_recipes
      { envHappy with create := Call.ok ⟨500, "x", "bad request"⟩ }).1 = false :=
  (c1_nonsuccess_fatal_only_for_create_read _ ⟨500, "x", "bad request"⟩
    ⟨200, ⟨some "MSI GP66", some "189999", some "MSI", "view"⟩, ""⟩
    ⟨200, [], ""⟩ ⟨200, [], ""⟩ rfl).1 (by decide)

/-! ### Claim C2 -/

/-- C2 counterexample: the create and read steps both receive status-200
responses, yet the scenario returns `False`, because the recipe-list call
raises a connection error — so the outcome of the recipe-list step can
change the returned value. -/
theorem c2_counterexample :
    envListConnLost.create = Call.ok ⟨200, "created", ""⟩
    ∧ envListConnLost.read
        = Call.ok ⟨200, ⟨some "MSI GP66", some "189999", some "MSI", "view"⟩, ""⟩
    ∧ (test_realistic_product_recipes envListConnLost).1 = false :=
  ⟨rfl, rfl, by rfl⟩

/-- C2 (amended): when all four endpoint calls return responses (no call
raises) and every matched history record carries the three displayed keys,
the scenario returns `True` exactly when the create and read steps both got
status 200; the statuses of the recipe-list and history steps and the field
validation outcome do not enter the result. -/
theorem c2_result_iff_create_read (env : Env1) (cr : Response String)
    (rr : Response ProductView) (lr : Response (List (String × RecipeInfo)))
    (hr : Response (List Transaction))
    (hc : env.create = Call.ok cr) (hrd : env.read = Call.ok rr)
    (hl : env.recipeList = Call.ok lr) (hh : env.history = Call.ok hr)
    (hkeys : ∀ tx ∈ product_transactions productId hr.body,
      tx.from_account.isSome ∧ tx.to_account.isSome ∧ tx.amount.isSome) :
    (test_realistic_product_recipes env).1
      = (cr.status_code == 200 && rr.status_code == 200) :=
  scenario1_wrapper env _ (scenario1_body_result env cr rr lr hr hc hrd hl hh hkeys)

theorem c2_witness :
    (test_realistic_product_recipes envListHistFail).1 = (200 == 200 && 200 == 200) :=
  c2_result_iff_create_read envListHistFail ⟨200, "created", ""⟩
    ⟨200, ⟨some "MSI GP66", some "189999", some "MSI", "view"⟩, ""⟩
    ⟨500, [], "internal error"⟩ ⟨500, [], "internal error"⟩
    rfl rfl rfl rfl (by decide)

/-! ### Claim C3 -/

/-- C3: the derived product-transactions view contains exactly the history
records whose `from_account` or `to_account` contains the product identifier
as a substring (same multiplicity for every record), in the original
relative order (it is a sublist of the input), and the displayed portion is
the last five elements of that view (a suffix of length `min len 5`). -/
theorem c3_product_transactions_view (pid : String) (hist : List Transaction) :
    (product_transactions pid hist).Sublist hist
    ∧ (∀ tx : Transaction, (product_transactions pid hist).count tx
        = if txMatches pid tx then hist.count tx else 0)
    ∧ (∀ tx : Transaction, txMatches pid tx = true ↔
        ((∃ s t : List Char, s ++ pid.data ++ t = (tx.from_account.getD "").data)
         ∨ (∃ s t : List Char, s ++ pid.data ++ t = (tx.to_account.getD "").data)))
    ∧ (∃ pre, pre ++ displayedTransactions pid hist = product_transactions pid hist)
    ∧ (displayedTransactions pid hist).length = min (product_transactions pid hist).length 5 := by
  refine ⟨List.filter_sublist _, fun tx => count_filter_eq _ _ _, fun tx => ?_, ?_, ?_⟩
  · simp [txMatches, strIn_iff]
  · exact ⟨(product_transactions pid hist).take ((product_transactions pid hist).length - 5),
      List.take_append_drop _ _⟩
  · simp only [displayedTransactions, lastFive, List.length_drop]
    omega

/-! ### Claim C8 -/

/-- C8: with successful create and read, a missing or empty `name`, `price`
or `brand` field in the read response puts the warning line in the log but
does not fail the scenario: the returned value is still `True`. -/
theorem c8_field_validation_nonfatal (env : Env1) (cr : Response String)
    (rr : Response ProductView) (lr : Response (List (String × RecipeInfo)))
    (hr : Response (List Transaction))
    (hc : env.create = Call.ok cr) (hcs : cr.status_code = 200)
    (hrd : env.read = Call.ok rr) (hrs : rr.status_code = 200)
    (hl : env.recipeList = Call.ok lr) (hh : env.history = Call.ok hr)
    (hkeys : ∀ tx ∈ product_transactions productId hr.body,
      tx.from_account.isSome ∧ tx.to_account.isSome ∧ tx.amount.isSome)
    (hval : (truthy rr.body.name && truthy rr.body.price && truthy rr.body.brand) = false) :
    warnLine ∈ (test_realistic_product_recipes env).2
    ∧ (test_realistic_product_recipes env).1 = true := by
  have hb := scenario1_body_result env cr rr lr hr hc hrd hl hh hkeys
  rw [hcs, hrs] at hb
  simp only [beq_self_eq_true, Bool.and_self] at hb
  refine ⟨?_, scenario1_wrapper env true hb⟩
  rw [scenario1_log_ok env true hb]
  exact scenario1_warn_mem env cr rr hc hcs hrd hrs hval

theorem c8_witness :
    warnLine ∈ (test_realistic_product_recipes envMissingBrand).2
    ∧ (test_realistic_product_recipes envMissingBrand).1 = true :=
  c8_field_validation_nonfatal envMissingBrand ⟨200, "created", ""⟩
    ⟨200, ⟨some "MSI GP66", some "189999", none, "view"⟩, ""⟩ ⟨200, [], ""⟩ ⟨200, [], ""⟩
    rfl rfl rfl rfl rfl rfl (by decide) (by decide)

/-! ### Claim C10 -/

/-- C10: a history record missing `from_account`/`to_account` defaults to
the empty string in the filter instead of raising; when every matched record
carries the three displayed keys the scenario (with otherwise successful
create/read) completes and returns `True`; a matched record lacking one of
them raises `KeyError`, which the catch-all handler turns into an overall
`False`. -/
theorem c10_history_key_safety :
    (∀ (env : Env1) (cr : Response String) (rr : Response ProductView)
       (lr : Response (List (String × RecipeInfo))) (hr : Response (List Transaction)),
      env.create = Call.ok cr → cr.status_code = 200 →
      env.read = Call.ok rr → rr.status_code = 200 →
      env.recipeList = Call.ok lr → env.history = Call.ok hr →
      (∀ tx ∈ product_transactions productId hr.body,
        tx.from_account.isSome ∧ tx.to_account.isSome ∧ tx.amount.isSome) →
      (test_realistic_product_recipes env).1 = true)
    ∧ (scenario1_body envMissingAmount).2 = Except.error (PyExc.keyError "amount")
    ∧ (test_realistic_product_recipes envMissingAmount).1 = false := by
  refine ⟨?_, by rfl, by rfl⟩
  intro env cr rr lr hr hc hcs hrd hrs hl hh hkeys
  have hb := scenario1_body_result env cr rr lr hr hc hrd hl hh hkeys
  rw [hcs, hrs] at hb
  simp only [beq_self_eq_true, Bool.and_self] at hb
  exact scenario1_wrapper env true hb

theorem c10_witness : (test_realistic_product_recipes envHappy).1 = true :=
  c10_history_key_safety.1 envHappy ⟨200, "created", ""⟩
    ⟨200, ⟨some "MSI GP66", some "189999", some "MSI", "view"⟩, ""⟩
    ⟨200, [("create_realistic_product", ⟨some "desc", some ["id"], some 3⟩)], ""⟩
    ⟨200, [⟨some ("bank." ++ productId), some "stock", some "100", some "m"⟩], ""⟩
    rfl rfl rfl rfl rfl rfl (by decide)

/-! ### Claim C4 -/

/-- Both calls of `test_second_product` raise a connection error. -/
def envSecondConnLost : Env2 :=
  { create := Call.raise PyExc.connectionError
    read := Call.raise PyExc.connectionError }

/-- C4 counterexample: in `test_second_product` a connection error is caught
and converted to `False`, but the log contains neither of the fixed
instruction lines telling how to start the server — its only handler prints
the generic iPhone error line — so the "logged with a fixed instructional
message" part of the claim fails for this scenario function. -/
theorem c4_counterexample :
    (test_second_product envSecondConnLost).1 = false
    ∧ connLine1 ∉ (test_second_product envSecondConnLost).2
    ∧ connLine2 ∉ (test_second_product envSecondConnLost).2 := by
  refine ⟨by rfl, ?_, ?_⟩ <;> decide

/-- C4 (amended): every exception escaping a scenario try-block is caught
and converted to a `False` return in both scenario functions, so no
exception propagates; in `test_realistic_product_recipes` a connection error
is additionally logged with the two fixed instruction lines, while other
exceptions — and every exception in `test_second_product` — produce a
generic error line instead. -/
theorem c4_exceptions_converted (env1 : Env1) (env2 : Env2) (e e2 : PyExc) :
    ((scenario1_body env1).2 = Except.error e → (test_realistic_product_recipes env1).1 = false)
    ∧ ((scenario2_body env2).2 = Except.error e2 → (test_second_product env2).1 = false)
    ∧ ((scenario1_body env1).2 = Except.error PyExc.connectionError →
        connLine1 ∈ (test_realistic_product_recipes env1).2
        ∧ connLine2 ∈ (test_realistic_product_recipes env1).2) := by
  refine ⟨fun h => scenario1_wrapper_err env1 e h,
          fun h => scenario2_wrapper_err env2 e2 h, fun h => ?_⟩
  rw [scenario1_conn_log env1 h]
  constructor <;> simp

theorem c4_witness :
    (test_realistic_product_recipes envListConnLost).1 = false
    ∧ (test_second_product envSecondConnLost).1 = false
    ∧ connLine1 ∈ (test_realistic_product_recipes envListConnLost).2 := by
  obtain ⟨h1, h2, h3⟩ := c4_exceptions_converted envListConnLost envSecondConnLost
    PyExc.connectionError PyExc.connectionError
  exact ⟨h1 (by rfl), h2 (by rfl), (h3 (by rfl)).1⟩

/-! ### Claim C7 -/

/-- Both calls of `test_second_product` succeed; the stored price is the
iPhone price `119999`. -/
def envSecondOk : Env2 :=
  { create := Call.ok ⟨200, (), ""⟩
    read := Call.ok ⟨200, ⟨some "Apple iPhone 15 Pro", some "119999", some "Apple", "view"⟩, ""⟩ }

/-- C7: in `test_second_product` the displayed price line is the stored
integer-cents price divided by 100 rendered with two decimal places
(`formatMoney`); in particular `formatMoney 119999 = "1199.99"`, and the
decimal `1199.99` is exactly `119999 / 100`. -/
theorem c7_price_display (env : Env2) (cr : Response Unit) (rr : Response ProductView)
    (s : String) (v : Int)
    (hc : env.create = Call.ok cr) (hcs : cr.status_code = 200)
    (hrd : env.read = Call.ok rr) (hrs : rr.status_code = 200)
    (hp : rr.body.price = some s) (hv : pyInt s = Except.ok v) :
    ("   Price: $" ++ formatMoney v) ∈ (test_second_product env).2
    ∧ formatMoney 119999 = "1199.99"
    ∧ (1199.99 : ℚ) = (119999 : ℚ) / 100 := by
  refine ⟨?_, by rfl, by norm_num⟩
  simp [test_second_product, scenario2_body, hc, hrd, hcs, hrs, hp, hv]

theorem c7_witness :
    ("   Price: $" ++ formatMoney 119999) ∈ (test_second_product envSecondOk).2
    ∧ formatMoney 119999 = "1199.99"
    ∧ (1199.99 : ℚ) = (119999 : ℚ) / 100 :=
  c7_price_display envSecondOk ⟨200, (), ""⟩
    ⟨200, ⟨some "Apple iPhone 15 Pro", some "119999", some "Apple", "view"⟩, ""⟩
    "119999" 119999 rfl rfl rfl rfl rfl rfl

/-! ### Claim C5 -/

/-- A 200 response whose mapping holds one matching and one non-matching
recipe name. -/
def recipesRespOk : Response (List (String × RecipeInfo)) :=
  ⟨200, [("create_realistic_product", ⟨some "Create product", some ["id"], some 3⟩),
         ("transfer", ⟨none, none, none⟩)], ""⟩

/-- C5: `check_recipes` returns `True` exactly when a response arrived with
status 200 and at least one recipe name contains `"realistic"`; and on
success the names it enumerates behind the `   📝 ` marker are exactly the
matching names, in order. -/
theorem c5_success_iff_and_enumeration (env : Call (List (String × RecipeInfo))) :
    ((check_recipes env).1 = true ↔
      ∃ resp : Response (List (String × RecipeInfo)),
        env = Call.ok resp ∧ resp.status_code = 200 ∧ realisticNames resp.body ≠ [])
    ∧ (∀ resp : Response (List (String × RecipeInfo)),
        env = Call.ok resp → resp.status_code = 200 → realisticNames resp.body ≠ [] →
        enumNames (check_recipes env).2 = realisticNames resp.body) := by
  constructor
  · cases env with
    | raise e =>
      rw [check_recipes_raise e]
      simp
    | ok resp =>
      by_cases hs : resp.status_code = 200
      · by_cases hne : realisticNames resp.body = []
        · rw [check_recipes_empty resp (by simp [hs]) hne]
          simp [hne]
        · rw [(check_recipes_success resp (by simp [hs]) hne).1]
          simp [hs, hne]
      · rw [check_recipes_bad_status resp (by simp [hs])]
        simp [hs]
  · intro resp h hs hne
    subst h
    rw [(check_recipes_success resp (by simp [hs]) hne).2]
    have hblocks := (recipeBlocks_eval resp.body (realisticNames resp.body)
      (fun m hm => lookupDict_realistic _ _ hm)).2
    rw [enumNames_append, enumNames_append, hblocks]
    rw [show enumNames ["🦖 Recipe Status Check", eq30, "✅ Realistic product recipes found:"]
          = [] from rfl]
    rw [show enumNames ["🚀 Ready to test! Run: python3 test_realistic_product.py"]
          = [] from rfl]
    simp

theorem c5_witness :
    enumNames (check_recipes (Call.ok recipesRespOk)).2 = realisticNames recipesRespOk.body :=
  (c5_success_iff_and_enumeration (Call.ok recipesRespOk)).2 recipesRespOk rfl rfl (by decide)

/-! ### Claim C6 -/

/-- A 200 response whose mapping holds no matching recipe name. -/
def recipesRespNone : Response (List (String × RecipeInfo)) :=
  ⟨200, [("transfer", ⟨none, none, none⟩), ("balance", ⟨some "b", none, none⟩)], ""⟩

/-- C6: with a 200 response whose recipe mapping has no name containing
`"realistic"`, `check_recipes` returns `False` and its diagnostic output
has the line listing all available recipe keys. -/
theorem c6_failure_lists_keys (env : Call (List (String × RecipeInfo)))
    (resp : Response (List (String × RecipeInfo)))
    (h : env = Call.ok resp) (hs : resp.status_code = 200)
    (hnone : realisticNames resp.body = []) :
    (check_recipes env).1 = false
    ∧ ("   Available recipes: " ++ pyReprList (resp.body.map Prod.fst))
        ∈ (check_recipes env).2 := by
  subst h
  refine ⟨check_recipes_empty resp (by simp [hs]) hnone, ?_⟩
  simp [check_recipes, check_recipes_body, hs, hnone]

theorem c6_witness :
    (check_recipes (Call.ok recipesRespNone)).1 = false
    ∧ ("   Available recipes: " ++ pyReprList (recipesRespNone.body.map Prod.fst))
        ∈ (check_recipes (Call.ok recipesRespNone)).2 :=
  c6_failure_lists_keys (Call.ok recipesRespNone) recipesRespNone rfl rfl (by decide)

/-! ### Claim C9 -/

/-- C9: the main block runs `test_second_product` exactly when the first
scenario returned `True`; the final success flag — which selects the
all-passed line — is the conjunction of both scenario results; and no exit
function is called, so the process exit code is 0 whatever the results. -/
theorem c9_main_block (e1 : Env1) (e2 : Env2) :
    mainRunsSecond e1 = (test_realistic_product_recipes e1).1
    ∧ mainSuccess e1 e2 = ((test_realistic_product_recipes e1).1 && (test_second_product e2).1)
    ∧ ((if mainSuccess e1 e2 then allPassedLine else someFailedLine) = allPassedLine
        ↔ (test_realistic_product_recipes e1).1 = true ∧ (test_second_product e2).1 = true)
    ∧ mainExitCode e1 e2 = 0 := by
  refine ⟨rfl, ?_, ?_, rfl⟩
  · rw [mainSuccess]
    cases (test_realistic_product_recipes e1).1 <;> simp
  · rw [mainSuccess]
    cases h1 : (test_realistic_product_recipes e1).1 <;>
      cases h2 : (test_second_product e2).1 <;> simp [h1, h2] <;> decide
